import Mathlib

/-!
Verification development for the streamdock-lenovo-legion-toolkit-helper
repository. The definitions shallowly embed the Go sources:

* `Modes` embeds `internal/modes` (power-mode rotation, src/unnamed/part_002);
* `Toast` embeds `internal/toast/notifier.go` (the OSD overlay notifier:
  window setup, window-procedure callback, lifecycle timer and the blocking
  message loop), with the Win32 calls modelled as an explicit environment and
  the emitted API calls recorded as a trace.
-/

namespace Modes

/-- Power modes are plain strings in the source (`type PowerMode string`). -/
abbrev PowerMode := String

/-- `Quiet PowerMode = "quiet"` -/
def Quiet : PowerMode := "quiet"

/-- `Balance PowerMode = "balance"` -/
def Balance : PowerMode := "balance"

/-- `Performance PowerMode = "performance"` -/
def Performance : PowerMode := "performance"

/-- `GodMode PowerMode = "godmode"` -/
def GodMode : PowerMode := "godmode"

/-- `Manager` holds the fixed mode sequence. -/
structure Manager where
  sequence : List PowerMode
deriving Repr, DecidableEq

/-- `NewManager` returns a manager with sequence `[Quiet, Balance, Performance]`. -/
def NewManager : Manager :=
  { sequence := [Quiet, Balance, Performance] }

/-- The index-search loop shared by `GetNextMode` and `GetNextModeFromList`:
`currentIndex := -1; for i, mode := range l { if mode == current { currentIndex = i; break } }`.
`none` models `currentIndex == -1` (no occurrence); `some i` is the first index
whose element equals `current`. -/
def findCurrentIndex (current : PowerMode) : List PowerMode → Option Nat
  | [] => none
  | m :: rest =>
      if m = current then some 0
      else (findCurrentIndex current rest).map (· + 1)

/-- `GetNextMode`: next mode in `m.sequence` after `current`, wrapping around;
an unknown `current` maps to `m.sequence[0]`. -/
def Manager.GetNextMode (m : Manager) (current : PowerMode) : PowerMode :=
  match findCurrentIndex current m.sequence with
  | none => m.sequence.getD 0 ""
  | some i => m.sequence.getD ((i + 1) % m.sequence.length) ""

/-- `GetNextModeFromList`: next mode from `allowedModes` after `current`;
empty list falls back to `GetNextMode`; `current` absent from the list yields
`allowedModes[0]`. -/
def Manager.GetNextModeFromList (m : Manager) (current : PowerMode)
    (allowedModes : List PowerMode) : PowerMode :=
  if allowedModes.length = 0 then m.GetNextMode current
  else
    match findCurrentIndex current allowedModes with
    | none => allowedModes.getD 0 ""
    | some i => allowedModes.getD ((i + 1) % allowedModes.length) ""

end Modes

namespace Toast

/-- The window messages handled by `wndProcCallback` (plus `other` for the
`DefWindowProc` fall-through): `WM_PAINT`, `WM_TIMER`, `WM_DESTROY`, anything
else. -/
inductive WMsg where
  | paint
  | timer
  | destroy
  | other (code : Nat)
deriving Repr, DecidableEq

/-- The Win32/GDI calls the notifier can issue, one constructor per call site
in `wndProcCallback` (plus `destroyWindow`, `postQuitMessage`, `killTimer`
for the lifecycle procs declared in the `var` block). `killTimer` mirrors the
`procKillTimer` binding; whether it is ever emitted is settled by theorems,
not assumed. Arguments record what the source passes (colors, font metrics,
the text drawn, and for `DrawTextW` whether the draw succeeded — the source
discards that result). -/
inductive ApiCall where
  | beginPaint
  | createSolidBrush (color : Nat)
  | fillRect
  | deleteObjectBrush
  | setBkMode (mode : Nat)
  | setTextColor (color : Nat)
  | createTitleFont (height weight : Nat) (face : String)
  | createMessageFont (height weight : Nat) (face : String)
  | selectTitleFont
  | selectMessageFont
  | selectOldFont
  | drawTitle (text : String) (ok : Bool)
  | drawMessage (text : String) (ok : Bool)
  | deleteTitleFont
  | deleteMessageFont
  | endPaint
  | destroyWindow
  | postQuitMessage
  | defWindowProc
  | killTimer
deriving Repr, DecidableEq

/-- The process-global text read by the paint handler (`globalTitle`,
`globalMessage` in the source) together with the outcome of the two
`DrawTextW` calls (the OS may fail either; the source ignores both results). -/
structure PaintCtx where
  globalTitle : String
  globalMessage : String
  drawTitleOk : Bool
  drawMessageOk : Bool
deriving Repr, DecidableEq

/-- The `WM_PAINT` branch of `wndProcCallback`, as the sequence of calls it
issues: `BeginPaint`; `CreateSolidBrush(0x00202020)`; `FillRect`;
`DeleteObject(bgBrush)`; `SetBkMode(TRANSPARENT)`; `SetTextColor(0x00FFFFFF)`;
`CreateFontW` twice (24/`FW_BOLD` and 18/regular, both "Segoe UI");
`SelectObject(titleFont)`; `DrawTextW(globalTitle)`;
`SelectObject(messageFont)`; `DrawTextW(globalMessage)`;
`SelectObject(oldFont)`; `DeleteObject` on both fonts; `EndPaint`.
The branch is straight-line: the `DrawTextW` results are discarded, so the
call sequence does not depend on them. -/
def paintCalls (ctx : PaintCtx) : List ApiCall :=
  [ .beginPaint,
    .createSolidBrush 0x00202020,
    .fillRect,
    .deleteObjectBrush,
    .setBkMode 1,
    .setTextColor 0x00FFFFFF,
    .createTitleFont 24 700 "Segoe UI",
    .createMessageFont 18 0 "Segoe UI",
    .selectTitleFont,
    .drawTitle ctx.globalTitle ctx.drawTitleOk,
    .selectMessageFont,
    .drawMessage ctx.globalMessage ctx.drawMessageOk,
    .selectOldFont,
    .deleteTitleFont,
    .deleteMessageFont,
    .endPaint ]

/-- `wndProcCallback`: the calls the window procedure issues for each message.
`WM_PAINT` runs the paint branch; `WM_TIMER` calls `DestroyWindow`;
`WM_DESTROY` calls `PostQuitMessage(0)`; everything else falls through to
`DefWindowProc`. -/
def wndProcCallback (ctx : PaintCtx) : WMsg → List ApiCall
  | .paint => paintCalls ctx
  | .timer => [.destroyWindow]
  | .destroy => [.postQuitMessage]
  | .other _ => [.defWindowProc]

/-- OS semantics of `DestroyWindow`: before it returns it delivers
`WM_DESTROY` synchronously to the window procedure (and disposes the
window's timers). The trace therefore expands a `destroyWindow` call into
the call followed by the calls of the `WM_DESTROY` handler. All other calls
expand to themselves. -/
def expandCall (ctx : PaintCtx) : ApiCall → List ApiCall
  | .destroyWindow => .destroyWindow :: wndProcCallback ctx .destroy
  | c => [c]

/-- `DispatchMessageW` for one retrieved message: the window procedure's calls
with the synchronous `DestroyWindow → WM_DESTROY` cascade expanded. -/
def dispatchMsg (ctx : PaintCtx) (m : WMsg) : List ApiCall :=
  (wndProcCallback ctx m).flatMap (expandCall ctx)

/-- The loop-relevant OS state: the thread's posted-message queue, whether the
one-shot lifecycle timer is pending, whether `PostQuitMessage` has run, and
whether the overlay window still exists. -/
structure OSState where
  queue : List WMsg
  timerArmed : Bool
  quitPosted : Bool
  windowAlive : Bool
deriving Repr, DecidableEq

/-- Effect of one issued call on the OS state: `DestroyWindow` removes the
window and its pending timer; `PostQuitMessage` sets the quit flag; drawing
and default-handling calls do not change the loop-relevant state. -/
def interpCall (s : OSState) : ApiCall → OSState
  | .destroyWindow => { s with windowAlive := false, timerArmed := false }
  | .postQuitMessage => { s with quitPosted := true }
  | _ => s

/-- Run a sequence of issued calls over the OS state. -/
def runCalls (calls : List ApiCall) (s : OSState) : OSState :=
  calls.foldl interpCall s

/-- Outcome of the message loop: `exited` when `GetMessageW` returned 0 and
the `for` loop broke out (the trace lists every call issued while pumping);
`blocked` when `GetMessageW` has nothing to retrieve and no timer or quit is
pending, so the thread waits forever; `outOfFuel` is the model's bound, not a
program behavior. -/
inductive LoopResult where
  | exited (trace : List ApiCall)
  | blocked (trace : List ApiCall)
  | outOfFuel (trace : List ApiCall)
deriving Repr, DecidableEq

/-- The message loop of `showOSD`: repeatedly `GetMessageW` then
`DispatchMessageW` until `GetMessageW` returns 0. `GetMessageW` returns 0
once `PostQuitMessage` has run (it retrieves `WM_QUIT`); otherwise it yields
the next queued message, or — with an empty queue — the pending `WM_TIMER`
if the one-shot timer has expired, and blocks forever when there is nothing
to deliver. -/
def messageLoop (ctx : PaintCtx) : Nat → OSState → List ApiCall → LoopResult
  | 0, _, acc => .outOfFuel acc
  | fuel + 1, s, acc =>
      if s.quitPosted then .exited acc
      else
        match s.queue with
        | m :: rest =>
            let calls := dispatchMsg ctx m
            messageLoop ctx fuel (runCalls calls { s with queue := rest }) (acc ++ calls)
        | [] =>
            if s.timerArmed then
              let calls := dispatchMsg ctx .timer
              messageLoop ctx fuel (runCalls calls { s with timerArmed := false }) (acc ++ calls)
            else .blocked acc

/-- The environment of OS responses `showOSD` consumes, one field per Win32
result the source reads (or, for `SetTimer`, discards): the
`RegisterClassExW` return (0 = failure), the two `GetSystemMetrics` screen
dimensions, the `CreateWindowExW` handle (0 = failure), the `SetTimer`
return (0 = failure), the messages already queued for the thread when the
loop starts, and the two `DrawTextW` outcomes. -/
structure OSEnv where
  registerClassExRet : Nat
  screenW : Nat
  screenH : Nat
  createWindowExRet : Nat
  setTimerRet : Nat
  initialQueue : List WMsg
  drawTitleOk : Bool
  drawMessageOk : Bool
deriving Repr, DecidableEq

/-- The overlay geometry `showOSD` computes and passes to `CreateWindowExW`,
as `(osdX, osdY, osdWidth, osdHeight)`:
`osdWidth = 400`, `osdHeight = 100`,
`osdX = (screenWidth - 400) / 2` (Go `int` division truncates toward zero),
`osdY = screenHeight - int(float64(screenHeight)*0.15)`.
For every height a 32-bit screen metric can hold, the truncated `float64`
product equals `⌊3·h/20⌋` exactly (the fractional parts of `3h/20` are
multiples of `1/20`, far larger than the rounding error), so the model
computes `(3 * screenH) / 20` in `Nat`. -/
def osdGeometry (screenW screenH : Nat) : Int × Int × Int × Int :=
  (((screenW : Int) - 400).tdiv 2,
   (screenH : Int) - ((3 * screenH) / 20 : Nat),
   400, 100)

/-- Record of one `showOSD` invocation: the Go `error` result (`none` is the
`nil` return), whether the call returned at all (`false` models a loop that
never exits), the `CreateWindowExW` geometry arguments, the
`SetLayeredWindowAttributes` alpha if reached, the `SetTimer`
`(timerID, milliseconds)` arguments if reached, whether the message loop was
entered, and the calls issued while pumping it. -/
structure ShowRun where
  error : Option String
  returned : Bool
  createArgs : Int × Int × Int × Int
  alpha : Option Nat
  setTimerArgs : Option (Nat × Nat)
  loopEntered : Bool
  trace : List ApiCall
deriving Repr, DecidableEq

/-- `showOSD(title, message, duration)`: registers the window class (a zero
return is tolerated — "Class might already be registered, continue anyway"),
reads the screen metrics, computes the geometry, creates the window
(`hwnd == 0` returns the error `CreateWindowEx failed` without entering the
loop), sets alpha 220, shows the window, arms the one-shot timer with
`SetTimer(hwnd, 1, duration.Milliseconds(), 0)` — the return value is
discarded, so a zero `setTimerRet` simply leaves no timer pending — and
pumps the message loop until `GetMessageW` returns 0, then returns `nil`.
`fuel` bounds the modelled loop; a `blocked`/`outOfFuel` loop outcome is a
call that never returns (`returned := false`). -/
def showOSD (title message : String) (durationMs : Nat) (env : OSEnv)
    (fuel : Nat) : ShowRun :=
  let geom := osdGeometry env.screenW env.screenH
  if env.createWindowExRet = 0 then
    { error := some "CreateWindowEx failed", returned := true,
      createArgs := geom, alpha := none, setTimerArgs := none,
      loopEntered := false, trace := [] }
  else
    let ctx : PaintCtx :=
      { globalTitle := title, globalMessage := message,
        drawTitleOk := env.drawTitleOk, drawMessageOk := env.drawMessageOk }
    let init : OSState :=
      { queue := env.initialQueue, timerArmed := env.setTimerRet ≠ 0,
        quitPosted := false, windowAlive := true }
    match messageLoop ctx fuel init [] with
    | .exited tr =>
        { error := none, returned := true, createArgs := geom,
          alpha := some 220, setTimerArgs := some (1, durationMs),
          loopEntered := true, trace := tr }
    | .blocked tr =>
        { error := none, returned := false, createArgs := geom,
          alpha := some 220, setTimerArgs := some (1, durationMs),
          loopEntered := true, trace := tr }
    | .outOfFuel tr =>
        { error := none, returned := false, createArgs := geom,
          alpha := some 220, setTimerArgs := some (1, durationMs),
          loopEntered := true, trace := tr }

/-- `Notifier` carries only the app id. -/
structure Notifier where
  appID : String
deriving Repr, DecidableEq

/-- `NewNotifier()` -/
def NewNotifier : Notifier :=
  { appID := "LenovoLegionToolkit.Helper" }

/-- Record of a facade call: the Go `error` result, the global title/message
the call stored for the paint handler, the duration handed to `showOSD`
(`3*time.Second`, i.e. 3000 ms), and the inner `showOSD` run. -/
structure NotifyRun where
  result : Option String
  globalTitle : String
  globalMessage : String
  durationMs : Nat
  run : ShowRun
deriving Repr, DecidableEq

/-- `ShowModeChange(modeName, iconPath)`: sets
`globalTitle = "Power Mode Changed"`,
`globalMessage = fmt.Sprintf("Switched to %s Mode", modeName)`, runs
`showOSD(globalTitle, globalMessage, 3*time.Second)` and wraps a failure as
`OSD notification error: <err>`. `iconPath` is a parameter of the source
function and is never read. -/
def Notifier.ShowModeChange (n : Notifier) (modeName iconPath : String)
    (env : OSEnv) (fuel : Nat) : NotifyRun :=
  let t := "Power Mode Changed"
  let m := "Switched to " ++ modeName ++ " Mode"
  let r := showOSD t m 3000 env fuel
  { result := r.error.map (fun e => "OSD notification error: " ++ e),
    globalTitle := t, globalMessage := m, durationMs := 3000, run := r }

/-- `ShowError(message)`: sets `globalTitle = "Power Mode Error"`,
`globalMessage = message`, runs `showOSD` for 3 seconds and wraps a failure
as `OSD notification error: <err>`. -/
def Notifier.ShowError (n : Notifier) (message : String)
    (env : OSEnv) (fuel : Nat) : NotifyRun :=
  let t := "Power Mode Error"
  let r := showOSD t message 3000 env fuel
  { result := r.error.map (fun e => "OSD notification error: " ++ e),
    globalTitle := t, globalMessage := message, durationMs := 3000, run := r }

/-- Drawing-resource acquisitions per call: `BeginPaint` obtains the paint
device context, `CreateSolidBrush` the background brush, the two
`CreateFontW` calls the title and message fonts. -/
def acquiresCount : ApiCall → Nat
  | .beginPaint => 1
  | .createSolidBrush _ => 1
  | .createTitleFont _ _ _ => 1
  | .createMessageFont _ _ _ => 1
  | _ => 0

/-- Drawing-resource releases per call: `EndPaint` releases the paint device
context, the three `DeleteObject` calls release the brush and the two fonts. -/
def releasesCount : ApiCall → Nat
  | .endPaint => 1
  | .deleteObjectBrush => 1
  | .deleteTitleFont => 1
  | .deleteMessageFont => 1
  | _ => 0

/-- Total drawing-resource acquisitions along a trace. -/
def traceAcquires (tr : List ApiCall) : Nat :=
  (tr.map acquiresCount).sum

/-- Total drawing-resource releases along a trace. -/
def traceReleases (tr : List ApiCall) : Nat :=
  (tr.map releasesCount).sum

/-- The trace carried by any loop outcome. -/
def resultTrace : LoopResult → List ApiCall
  | .exited tr => tr
  | .blocked tr => tr
  | .outOfFuel tr => tr

theorem dispatchMsg_paint (ctx : PaintCtx) :
    dispatchMsg ctx .paint = paintCalls ctx := rfl

theorem dispatchMsg_timer (ctx : PaintCtx) :
    dispatchMsg ctx .timer = [.destroyWindow, .postQuitMessage] := rfl

theorem dispatchMsg_destroy (ctx : PaintCtx) :
    dispatchMsg ctx .destroy = [.postQuitMessage] := rfl

theorem dispatchMsg_other (ctx : PaintCtx) (c : Nat) :
    dispatchMsg ctx (.other c) = [.defWindowProc] := rfl

theorem runCalls_paint (ctx : PaintCtx) (s : OSState) :
    runCalls (paintCalls ctx) s = s := rfl

theorem runCalls_other (s : OSState) :
    runCalls [.defWindowProc] s = s := rfl

theorem runCalls_timer (ctx : PaintCtx) (s : OSState) :
    runCalls (dispatchMsg ctx .timer) s =
      { s with windowAlive := false, timerArmed := false, quitPosted := true } := rfl

theorem destroyWindow_not_mem_paintCalls (ctx : PaintCtx) :
    ApiCall.destroyWindow ∉ paintCalls ctx := by
  simp [paintCalls]

theorem postQuitMessage_not_mem_paintCalls (ctx : PaintCtx) :
    ApiCall.postQuitMessage ∉ paintCalls ctx := by
  simp [paintCalls]

theorem messageLoop_step_queue (ctx : PaintCtx) (fuel : Nat) (m : WMsg)
    (rest : List WMsg) (t w : Bool) (acc : List ApiCall) :
    messageLoop ctx (fuel + 1) ⟨m :: rest, t, false, w⟩ acc =
      messageLoop ctx fuel (runCalls (dispatchMsg ctx m) ⟨rest, t, false, w⟩)
        (acc ++ dispatchMsg ctx m) := rfl

theorem messageLoop_step_timer (ctx : PaintCtx) (fuel : Nat) (w : Bool)
    (acc : List ApiCall) :
    messageLoop ctx (fuel + 1) ⟨[], true, false, w⟩ acc =
      messageLoop ctx fuel
        (runCalls (dispatchMsg ctx .timer) ⟨[], false, false, w⟩)
        (acc ++ dispatchMsg ctx .timer) := rfl

theorem messageLoop_quit (ctx : PaintCtx) (fuel : Nat) (q : List WMsg)
    (t w : Bool) (acc : List ApiCall) :
    messageLoop ctx (fuel + 1) ⟨q, t, true, w⟩ acc = .exited acc := rfl

theorem messageLoop_blocks (ctx : PaintCtx) (fuel : Nat) (w : Bool)
    (acc : List ApiCall) :
    messageLoop ctx (fuel + 1) ⟨[], false, false, w⟩ acc = .blocked acc := rfl

/-- Once the one-shot timer is pending and no quit has been posted, the
message loop drains any backlog of paint/other messages (the normal-operation
queue contains no posted `WM_TIMER`/`WM_DESTROY`), then the timer expiry
dispatches `DestroyWindow`, whose synchronous `WM_DESTROY` posts the quit,
and the next `GetMessageW` returns 0: the loop exits within
`queue length + 2` iterations, its trace ending in the
`destroyWindow, postQuitMessage` pair, with neither call occurring earlier. -/
theorem messageLoop_exits (ctx : PaintCtx) (q : List WMsg) :
    ∀ (s : OSState) (acc : List ApiCall),
      s.queue = q → s.quitPosted = false → s.timerArmed = true →
      WMsg.destroy ∉ q → WMsg.timer ∉ q →
      ∃ pre, messageLoop ctx (q.length + 2) s acc =
          .exited (acc ++ (pre ++ [.destroyWindow, .postQuitMessage])) ∧
        ApiCall.destroyWindow ∉ pre ∧ ApiCall.postQuitMessage ∉ pre := by
  induction q with
  | nil =>
      intro s acc hq hquit htimer _ _
      obtain ⟨sq, st, sp, sw⟩ := s
      simp only at hq hquit htimer
      subst hq; subst hquit; subst htimer
      exact ⟨[], rfl, by simp, by simp⟩
  | cons m rest ih =>
      intro s acc hq hquit htimer hd htm
      obtain ⟨sq, st, sp, sw⟩ := s
      simp only at hq hquit htimer
      subst hq; subst hquit; subst htimer
      have hmd : m ≠ WMsg.destroy := fun h => hd (h ▸ List.mem_cons_self m rest)
      have hmt : m ≠ WMsg.timer := fun h => htm (h ▸ List.mem_cons_self m rest)
      have hd' : WMsg.destroy ∉ rest := fun h => hd (List.mem_cons_of_mem m h)
      have htm' : WMsg.timer ∉ rest := fun h => htm (List.mem_cons_of_mem m h)
      have hlen : (m :: rest).length + 2 = (rest.length + 2) + 1 := by
        simp [List.length_cons]
      cases m with
      | paint =>
          obtain ⟨pre, hrun, hpd, hpp⟩ :=
            ih ⟨rest, true, false, sw⟩ (acc ++ paintCalls ctx) rfl rfl rfl hd' htm'
          refine ⟨paintCalls ctx ++ pre, ?_, ?_, ?_⟩
          · rw [hlen, messageLoop_step_queue, dispatchMsg_paint, runCalls_paint,
              hrun]
            simp
          · intro h
            rcases List.mem_append.mp h with h | h
            · exact destroyWindow_not_mem_paintCalls ctx h
            · exact hpd h
          · intro h
            rcases List.mem_append.mp h with h | h
            · exact postQuitMessage_not_mem_paintCalls ctx h
            · exact hpp h
      | timer => exact absurd rfl hmt
      | destroy => exact absurd rfl hmd
      | other c =>
          obtain ⟨pre, hrun, hpd, hpp⟩ :=
            ih ⟨rest, true, false, sw⟩ (acc ++ [.defWindowProc]) rfl rfl rfl hd' htm'
          refine ⟨.defWindowProc :: pre, ?_, ?_, ?_⟩
          · rw [hlen, messageLoop_step_queue, dispatchMsg_other, runCalls_other,
              hrun]
            simp
          · intro h
            rcases List.mem_cons.mp h with h | h
            · exact ApiCall.noConfusion h
            · exact hpd h
          · intro h
            rcases List.mem_cons.mp h with h | h
            · exact ApiCall.noConfusion h
            · exact hpp h

theorem showOSD_createArgs (title message : String) (durationMs : Nat)
    (env : OSEnv) (fuel : Nat) :
    (showOSD title message durationMs env fuel).createArgs =
      osdGeometry env.screenW env.screenH := by
  by_cases h : env.createWindowExRet = 0
  · simp [showOSD, h]
  · simp only [showOSD, if_neg h]
    rcases messageLoop _ fuel _ [] with tr | tr | tr <;> rfl

theorem showOSD_error_eq (title message : String) (durationMs : Nat)
    (env : OSEnv) (fuel : Nat) :
    (showOSD title message durationMs env fuel).error =
      if env.createWindowExRet = 0 then some "CreateWindowEx failed" else none := by
  by_cases h : env.createWindowExRet = 0
  · simp [showOSD, h]
  · simp only [showOSD, if_neg h]
    rcases messageLoop _ fuel _ [] with tr | tr | tr <;> rfl

theorem showOSD_loopEntered_eq (title message : String) (durationMs : Nat)
    (env : OSEnv) (fuel : Nat) :
    (showOSD title message durationMs env fuel).loopEntered =
      !(env.createWindowExRet == 0) := by
  by_cases h : env.createWindowExRet = 0
  · simp [showOSD, h]
  · simp only [showOSD, if_neg h]
    rcases messageLoop _ fuel _ [] with tr | tr | tr <;> simp [h]

end Toast

namespace Modes

theorem findCurrentIndex_eq_none {current : PowerMode} {l : List PowerMode} :
    findCurrentIndex current l = none ↔ current ∉ l := by
  induction l with
  | nil => simp [findCurrentIndex]
  | cons m rest ih =>
      by_cases h : m = current
      · simp [findCurrentIndex, h]
      · constructor
        · intro hn hc
          rw [List.mem_cons] at hc
          rcases hc with hc | hc
          · exact h hc.symm
          · simp [findCurrentIndex, h] at hn
            exact (ih.mp hn) hc
        · intro hc
          simp [findCurrentIndex, h]
          exact ih.mpr (fun hm => hc (List.mem_cons_of_mem m hm))

theorem findCurrentIndex_lt {current : PowerMode} {l : List PowerMode} {i : Nat}
    (h : findCurrentIndex current l = some i) : i < l.length := by
  induction l generalizing i with
  | nil => simp [findCurrentIndex] at h
  | cons m rest ih =>
      by_cases hm : m = current
      · simp [findCurrentIndex, hm] at h
        simp [← h]
      · simp [findCurrentIndex, hm] at h
        obtain ⟨j, hj, rfl⟩ := h
        have := ih hj
        simp only [List.length_cons]
        omega

theorem findCurrentIndex_first {current : PowerMode} {l : List PowerMode} {i : Nat}
    (hi : i < l.length) (hcur : l.getD i "" = current)
    (hfirst : ∀ j, j < i → l.getD j "" ≠ current) :
    findCurrentIndex current l = some i := by
  induction l generalizing i with
  | nil => simp at hi
  | cons m rest ih =>
      cases i with
      | zero =>
          simp at hcur
          simp [findCurrentIndex, hcur]
      | succ i =>
          have hm : m ≠ current := by
            have := hfirst 0 (Nat.succ_pos i)
            simpa using this
          simp at hi
          have hcur' : rest.getD i "" = current := by simpa using hcur
          have hfirst' : ∀ j, j < i → rest.getD j "" ≠ current := by
            intro j hj
            have := hfirst (j + 1) (by omega)
            simpa using this
          simp [findCurrentIndex, hm, ih hi hcur' hfirst']

theorem getD_mem {l : List PowerMode} {i : Nat} (h : i < l.length) :
    l.getD i "" ∈ l := by
  rw [List.getD_eq_getElem l "" h]
  exact List.getElem_mem h

end Modes

namespace Toast

theorem expandCall_of_ne_destroy (ctx : PaintCtx) (c : ApiCall)
    (h : c ≠ ApiCall.destroyWindow) : expandCall ctx c = [c] := by
  cases c <;> first | rfl | exact absurd rfl h

theorem mem_dispatchMsg (ctx : PaintCtx) (m : WMsg) (x : ApiCall)
    (h : x ∈ dispatchMsg ctx m) :
    x ∈ wndProcCallback ctx m ∨ x = ApiCall.postQuitMessage := by
  simp only [dispatchMsg, List.mem_flatMap] at h
  obtain ⟨c, hc, hx⟩ := h
  by_cases hd : c = ApiCall.destroyWindow
  · subst hd
    simp [expandCall, wndProcCallback] at hx
    rcases hx with rfl | rfl
    · exact Or.inl hc
    · exact Or.inr rfl
  · rw [expandCall_of_ne_destroy ctx c hd] at hx
    simp at hx
    subst hx
    exact Or.inl hc

theorem messageLoop_trace_mem (ctx : PaintCtx) :
    ∀ (fuel : Nat) (s : OSState) (acc : List ApiCall) (x : ApiCall),
      x ∈ resultTrace (messageLoop ctx fuel s acc) →
      x ∈ acc ∨ ∃ m, x ∈ dispatchMsg ctx m := by
  intro fuel
  induction fuel with
  | zero => intro s acc x h; exact Or.inl h
  | succ n ih =>
      intro s acc x h
      obtain ⟨sq, st, sp, sw⟩ := s
      cases sp with
      | true => exact Or.inl h
      | false =>
          cases sq with
          | cons m rest =>
              rcases ih _ _ x h with hin | hd
              · rcases List.mem_append.mp hin with h1 | h2
                · exact Or.inl h1
                · exact Or.inr ⟨m, h2⟩
              · exact hd.elim (fun m' hm' => Or.inr ⟨m', hm'⟩)
          | nil =>
              cases st with
              | true =>
                  rcases ih _ _ x h with hin | hd
                  · rcases List.mem_append.mp hin with h1 | h2
                    · exact Or.inl h1
                    · exact Or.inr ⟨WMsg.timer, h2⟩
                  · exact hd.elim (fun m' hm' => Or.inr ⟨m', hm'⟩)
              | false => exact Or.inl h

theorem drawTitle_mem_wndProc (ctx : PaintCtx) (m : WMsg) (t : String) (ok : Bool)
    (h : ApiCall.drawTitle t ok ∈ wndProcCallback ctx m) :
    t = ctx.globalTitle := by
  cases m with
  | paint =>
      simp [wndProcCallback, paintCalls] at h
      exact h.1
  | timer => simp [wndProcCallback] at h
  | destroy => simp [wndProcCallback] at h
  | other c => simp [wndProcCallback] at h

theorem drawMessage_mem_wndProc (ctx : PaintCtx) (m : WMsg) (t : String) (ok : Bool)
    (h : ApiCall.drawMessage t ok ∈ wndProcCallback ctx m) :
    t = ctx.globalMessage := by
  cases m with
  | paint =>
      simp [wndProcCallback, paintCalls] at h
      exact h.1
  | timer => simp [wndProcCallback] at h
  | destroy => simp [wndProcCallback] at h
  | other c => simp [wndProcCallback] at h

theorem showOSD_trace_eq (title message : String) (durationMs : Nat)
    (env : OSEnv) (fuel : Nat) (hc : env.createWindowExRet ≠ 0) :
    (showOSD title message durationMs env fuel).trace =
      resultTrace (messageLoop
        ⟨title, message, env.drawTitleOk, env.drawMessageOk⟩ fuel
        ⟨env.initialQueue, decide (env.setTimerRet ≠ 0), false, true⟩ []) := by
  simp only [showOSD, if_neg hc]
  rcases messageLoop _ fuel _ [] with tr | tr | tr <;> rfl

theorem showOSD_trace_drawTitle (title message : String) (durationMs : Nat)
    (env : OSEnv) (fuel : Nat) (t : String) (ok : Bool)
    (h : ApiCall.drawTitle t ok ∈ (showOSD title message durationMs env fuel).trace) :
    t = title := by
  by_cases hc : env.createWindowExRet = 0
  · simp [showOSD, hc] at h
  · rw [showOSD_trace_eq title message durationMs env fuel hc] at h
    rcases messageLoop_trace_mem _ fuel _ [] _ h with hin | ⟨m, hm⟩
    · simp at hin
    · rcases mem_dispatchMsg _ m _ hm with hw | hpq
      · exact drawTitle_mem_wndProc _ m t ok hw
      · exact ApiCall.noConfusion hpq

theorem showOSD_trace_drawMessage (title message : String) (durationMs : Nat)
    (env : OSEnv) (fuel : Nat) (t : String) (ok : Bool)
    (h : ApiCall.drawMessage t ok ∈ (showOSD title message durationMs env fuel).trace) :
    t = message := by
  by_cases hc : env.createWindowExRet = 0
  · simp [showOSD, hc] at h
  · rw [showOSD_trace_eq title message durationMs env fuel hc] at h
    rcases messageLoop_trace_mem _ fuel _ [] _ h with hin | ⟨m, hm⟩
    · simp at hin
    · rcases mem_dispatchMsg _ m _ hm with hw | hpq
      · exact drawMessage_mem_wndProc _ m t ok hw
      · exact ApiCall.noConfusion hpq

/-- Shared run shape: with window creation and timer arming both successful
and a normal-operation backlog (no posted `WM_TIMER`/`WM_DESTROY`),
`showOSD` returns `nil` after its loop exits, the trace ending in the
`destroyWindow, postQuitMessage` pair and containing neither call earlier. -/
theorem showOSD_exits_shape (title message : String) (durationMs : Nat)
    (env : OSEnv)
    (hcreate : env.createWindowExRet ≠ 0) (htimer : env.setTimerRet ≠ 0)
    (hqd : WMsg.destroy ∉ env.initialQueue) (hqt : WMsg.timer ∉ env.initialQueue) :
    ∃ pre, showOSD title message durationMs env (env.initialQueue.length + 2) =
        { error := none, returned := true,
          createArgs := osdGeometry env.screenW env.screenH,
          alpha := some 220, setTimerArgs := some (1, durationMs),
          loopEntered := true,
          trace := pre ++ [ApiCall.destroyWindow, ApiCall.postQuitMessage] } ∧
      ApiCall.destroyWindow ∉ pre ∧ ApiCall.postQuitMessage ∉ pre := by
  obtain ⟨pre, hrun, hd, hp⟩ :=
    messageLoop_exits ⟨title, message, env.drawTitleOk, env.drawMessageOk⟩
      env.initialQueue
      ⟨env.initialQueue, decide (env.setTimerRet ≠ 0), false, true⟩ []
      rfl rfl (decide_eq_true htimer) hqd hqt
  refine ⟨pre, ?_, hd, hp⟩
  simp only [showOSD, if_neg hcreate]
  rw [hrun]
  simp

theorem traceAcquires_append (a b : List ApiCall) :
    traceAcquires (a ++ b) = traceAcquires a + traceAcquires b := by
  simp [traceAcquires]

theorem traceReleases_append (a b : List ApiCall) :
    traceReleases (a ++ b) = traceReleases a + traceReleases b := by
  simp [traceReleases]

end Toast

namespace Toast

/-- C1: for every notification request (any title, any message, duration > 0),
once the overlay window has been created (`CreateWindowExW` returned a
non-null handle) and the one-shot timer armed (`SetTimer` succeeded), the
Event Dispatcher loop in `showOSD` terminates: the timer's expiry dispatches
a `DestroyWindow` request, whose synchronous `WM_DESTROY` posts the quit
signal, `GetMessageW` then returns 0 and the loop exits — within a bound of
backlog-length + 2 iterations, never indefinitely — and `showOSD` returns
success. -/
theorem showOSD_dispatcher_terminates (title message : String) (durationMs : Nat)
    (env : OSEnv) (hdur : 0 < durationMs)
    (hcreate : env.createWindowExRet ≠ 0) (htimer : env.setTimerRet ≠ 0)
    (hqd : WMsg.destroy ∉ env.initialQueue) (hqt : WMsg.timer ∉ env.initialQueue) :
    (showOSD title message durationMs env (env.initialQueue.length + 2)).returned = true ∧
    (showOSD title message durationMs env (env.initialQueue.length + 2)).error = none ∧
    ∃ pre, (showOSD title message durationMs env (env.initialQueue.length + 2)).trace =
      pre ++ [ApiCall.destroyWindow, ApiCall.postQuitMessage] := by
  obtain ⟨pre, hs, hd, hp⟩ :=
    showOSD_exits_shape title message durationMs env hcreate htimer hqd hqt
  rw [hs]
  exact ⟨rfl, rfl, pre, rfl⟩

theorem showOSD_dispatcher_terminates_witness :
    0 < 3000 ∧
    (showOSD "Power Mode Changed" "Switched to Quiet Mode" 3000
        ⟨0, 1920, 1080, 7, 1, [WMsg.paint, WMsg.other 32], true, true⟩
        ((⟨0, 1920, 1080, 7, 1, [WMsg.paint, WMsg.other 32], true, true⟩ : OSEnv).initialQueue.length + 2)).returned = true ∧
    (showOSD "Power Mode Changed" "Switched to Quiet Mode" 3000
        ⟨0, 1920, 1080, 7, 1, [WMsg.paint, WMsg.other 32], true, true⟩
        ((⟨0, 1920, 1080, 7, 1, [WMsg.paint, WMsg.other 32], true, true⟩ : OSEnv).initialQueue.length + 2)).error = none ∧
    ∃ pre, (showOSD "Power Mode Changed" "Switched to Quiet Mode" 3000
        ⟨0, 1920, 1080, 7, 1, [WMsg.paint, WMsg.other 32], true, true⟩
        ((⟨0, 1920, 1080, 7, 1, [WMsg.paint, WMsg.other 32], true, true⟩ : OSEnv).initialQueue.length + 2)).trace =
      pre ++ [ApiCall.destroyWindow, ApiCall.postQuitMessage] :=
  ⟨by decide,
   showOSD_dispatcher_terminates "Power Mode Changed" "Switched to Quiet Mode" 3000
     ⟨0, 1920, 1080, 7, 1, [WMsg.paint, WMsg.other 32], true, true⟩
     (by decide) (by decide) (by decide) (by decide) (by decide)⟩

/-- C2 (counterexample): at a concrete paint context, the complete call
sequence of the `WM_TIMER`-triggered destroy path is
`[DestroyWindow, PostQuitMessage]`: it contains no `KillTimer` call, so the
window procedure does not issue a KillTimer-style cancellation before or as
the window is destroyed. -/
theorem wndProc_timer_killTimer_cex :
    ApiCall.killTimer ∉ dispatchMsg
      ⟨"Power Mode Changed", "Switched to Quiet Mode", true, true⟩ WMsg.timer ∧
    dispatchMsg ⟨"Power Mode Changed", "Switched to Quiet Mode", true, true⟩ WMsg.timer =
      [ApiCall.destroyWindow, ApiCall.postQuitMessage] :=
  ⟨by decide, rfl⟩

/-- C2 (amended): the window procedure never calls `KillTimer` for any
message (`procKillTimer` is bound but unused); the `WM_TIMER` branch consists
of `DestroyWindow` alone. The window's timer is nevertheless disposed,
because `DestroyWindow` itself cancels the window's timers, so after the
timer-triggered destruction no timer remains pending. -/
theorem wndProc_no_killTimer (ctx : PaintCtx) (m : WMsg) (s : OSState) :
    ApiCall.killTimer ∉ wndProcCallback ctx m ∧
    ApiCall.killTimer ∉ dispatchMsg ctx m ∧
    wndProcCallback ctx WMsg.timer = [ApiCall.destroyWindow] ∧
    (runCalls (dispatchMsg ctx WMsg.timer) s).timerArmed = false := by
  refine ⟨?_, ?_, rfl, rfl⟩ <;>
    cases m <;> simp [wndProcCallback, paintCalls, dispatchMsg, expandCall]

/-- C3 (counterexample): with window creation succeeding but `SetTimer`
failing (returning 0), `showOSD` reports no error, never issues any
`DestroyWindow` (no fallback path), and never returns — the failure is
silently ignored, not treated as fatal. -/
theorem showOSD_setTimer_failure_cex :
    (showOSD "Power Mode Changed" "Switched to Quiet Mode" 3000
        ⟨1, 1920, 1080, 7, 0, [], true, true⟩ 9).error = none ∧
    (showOSD "Power Mode Changed" "Switched to Quiet Mode" 3000
        ⟨1, 1920, 1080, 7, 0, [], true, true⟩ 9).returned = false ∧
    ApiCall.destroyWindow ∉ (showOSD "Power Mode Changed" "Switched to Quiet Mode" 3000
        ⟨1, 1920, 1080, 7, 0, [], true, true⟩ 9).trace :=
  ⟨rfl, rfl, by decide⟩

/-- C3 (amended): a failure to arm the one-shot lifecycle timer is silently
ignored: `showOSD` discards the `SetTimer` result, surfaces no error, issues
no fallback destroy, and — with no pending messages — its dispatcher blocks
in `GetMessageW` forever, so the call never returns and the overlay is never
destroyed. -/
theorem showOSD_setTimer_failure_ignored (title message : String)
    (durationMs : Nat) (env : OSEnv) (fuel : Nat)
    (hcreate : env.createWindowExRet ≠ 0) (hst : env.setTimerRet = 0)
    (hq : env.initialQueue = []) (hfuel : 0 < fuel) :
    (showOSD title message durationMs env fuel).returned = false ∧
    (showOSD title message durationMs env fuel).error = none ∧
    ApiCall.destroyWindow ∉ (showOSD title message durationMs env fuel).trace := by
  obtain ⟨n, rfl⟩ : ∃ n, fuel = n + 1 := ⟨fuel - 1, by omega⟩
  have hblock : messageLoop ⟨title, message, env.drawTitleOk, env.drawMessageOk⟩
      (n + 1) ⟨env.initialQueue, decide (env.setTimerRet ≠ 0), false, true⟩ [] =
      .blocked [] := by
    rw [hq, hst]
    exact messageLoop_blocks _ n true []
  have hshape : showOSD title message durationMs env (n + 1) =
      { error := none, returned := false,
        createArgs := osdGeometry env.screenW env.screenH, alpha := some 220,
        setTimerArgs := some (1, durationMs), loopEntered := true,
        trace := [] } := by
    simp only [showOSD, if_neg hcreate]
    rw [hblock]
  rw [hshape]
  exact ⟨rfl, rfl, by simp⟩

theorem showOSD_setTimer_failure_ignored_witness :
    (showOSD "Power Mode Error" "oops" 3000
        ⟨1, 1920, 1080, 7, 0, [], true, true⟩ 9).returned = false ∧
    (showOSD "Power Mode Error" "oops" 3000
        ⟨1, 1920, 1080, 7, 0, [], true, true⟩ 9).error = none ∧
    ApiCall.destroyWindow ∉ (showOSD "Power Mode Error" "oops" 3000
        ⟨1, 1920, 1080, 7, 0, [], true, true⟩ 9).trace :=
  showOSD_setTimer_failure_ignored "Power Mode Error" "oops" 3000
    ⟨1, 1920, 1080, 7, 0, [], true, true⟩ 9 (by decide) rfl rfl (by decide)

/-- C4: `showOSD` returns an error if and only if `CreateWindowExW` yields a
null handle (and then the message loop is never entered); a failed or
duplicate `RegisterClassExW` (return 0) is never surfaced as an error and
changes nothing in the subsequent behavior — two runs differing only in the
registration result are identical. -/
theorem showOSD_error_iff_createWindow (title message : String)
    (durationMs : Nat) (env : OSEnv) (fuel : Nat) (r₁ r₂ : Nat) :
    ((showOSD title message durationMs env fuel).error.isSome ↔
      env.createWindowExRet = 0) ∧
    (env.createWindowExRet = 0 →
      (showOSD title message durationMs env fuel).error =
        some "CreateWindowEx failed" ∧
      (showOSD title message durationMs env fuel).loopEntered = false) ∧
    (env.createWindowExRet ≠ 0 →
      (showOSD title message durationMs env fuel).error = none) ∧
    showOSD title message durationMs { env with registerClassExRet := r₁ } fuel =
      showOSD title message durationMs { env with registerClassExRet := r₂ } fuel := by
  refine ⟨?_, ?_, ?_, rfl⟩
  · rw [showOSD_error_eq]
    by_cases h : env.createWindowExRet = 0 <;> simp [h]
  · intro h
    rw [showOSD_error_eq, showOSD_loopEntered_eq]
    simp [h]
  · intro h
    rw [showOSD_error_eq]
    simp [h]

theorem showOSD_error_iff_createWindow_witness :
    (showOSD "Power Mode Changed" "Switched to Quiet Mode" 3000
        ⟨0, 1920, 1080, 0, 1, [], true, true⟩ 5).error =
      some "CreateWindowEx failed" ∧
    (showOSD "Power Mode Changed" "Switched to Quiet Mode" 3000
        ⟨0, 1920, 1080, 0, 1, [], true, true⟩ 5).loopEntered = false :=
  (showOSD_error_iff_createWindow "Power Mode Changed" "Switched to Quiet Mode"
    3000 ⟨0, 1920, 1080, 0, 1, [], true, true⟩ 5 3 9).2.1 rfl

/-- C5: for every paint response (any global title/message, and whether or
not either `DrawTextW` call fails — the branch is straight-line and discards
their results), drawing-resource acquisitions equal releases: the background
brush, title font and message font are each created once and deleted once,
and the paint DC from `BeginPaint` is released by exactly one `EndPaint`;
across `n` consecutive repaints the balance holds as well, so no resource
outlives its paint response. -/
theorem paint_resources_balanced (ctx : PaintCtx) (n : Nat) :
    traceAcquires (paintCalls ctx) = traceReleases (paintCalls ctx) ∧
    traceAcquires (paintCalls ctx) = 4 ∧
    (paintCalls ctx).count (ApiCall.createSolidBrush 0x00202020) = 1 ∧
    (paintCalls ctx).count ApiCall.deleteObjectBrush = 1 ∧
    (paintCalls ctx).count (ApiCall.createTitleFont 24 700 "Segoe UI") = 1 ∧
    (paintCalls ctx).count ApiCall.deleteTitleFont = 1 ∧
    (paintCalls ctx).count (ApiCall.createMessageFont 18 0 "Segoe UI") = 1 ∧
    (paintCalls ctx).count ApiCall.deleteMessageFont = 1 ∧
    (paintCalls ctx).count ApiCall.beginPaint = 1 ∧
    (paintCalls ctx).count ApiCall.endPaint = 1 ∧
    traceAcquires (List.replicate n (paintCalls ctx)).flatten =
      traceReleases (List.replicate n (paintCalls ctx)).flatten := by
  refine ⟨rfl, rfl, rfl, rfl, rfl, rfl, rfl, rfl, rfl, rfl, ?_⟩
  induction n with
  | zero => rfl
  | succ k ihn =>
      rw [List.replicate_succ, List.flatten_cons, traceAcquires_append,
        traceReleases_append, ihn]
      rfl

theorem intTdiv_natCast (m n : Nat) :
    ((m : Int)).tdiv ((n : Int)) = ((m / n : Nat) : Int) := rfl

/-- C7: for every reported primary-display width and height, the overlay
window is created with size exactly 400×100, `osdX = (W - 400) / 2`
(truncating division, i.e. horizontally centered: the two margins differ by
at most one pixel), and top `osdY = H - ⌊0.15 · H⌋` (the code's truncated
`float64(H)*0.15`, which equals `⌊3H/20⌋`), i.e. 15% up from the bottom
edge. -/
theorem showOSD_overlay_geometry (title message : String) (durationMs : Nat)
    (env : OSEnv) (fuel : Nat) :
    (showOSD title message durationMs env fuel).createArgs =
      (((env.screenW : Int) - 400).tdiv 2,
       (env.screenH : Int) - ((3 * env.screenH / 20 : Nat) : Int), 400, 100) ∧
    (400 ≤ env.screenW →
      ((env.screenW : Int) - 400).tdiv 2 = (((env.screenW - 400) / 2 : Nat) : Int) ∧
      (2 * ((env.screenW - 400) / 2) + 400 = env.screenW ∨
       2 * ((env.screenW - 400) / 2) + 401 = env.screenW)) ∧
    (20 * (3 * env.screenH / 20) ≤ 3 * env.screenH ∧
     3 * env.screenH < 20 * (3 * env.screenH / 20) + 20) := by
  refine ⟨?_, ?_, by omega⟩
  · rw [showOSD_createArgs]
    rfl
  · intro hW
    have hcast : (env.screenW : Int) - 400 = ((env.screenW - 400 : Nat) : Int) := by
      omega
    exact ⟨by rw [hcast]; exact intTdiv_natCast (env.screenW - 400) 2, by omega⟩

theorem showOSD_overlay_geometry_witness :
    (showOSD "Power Mode Changed" "Switched to Quiet Mode" 3000
        ⟨0, 1920, 1080, 7, 1, [], true, true⟩ 2).createArgs =
      (760, 918, 400, 100) ∧
    ((1920 : Int) - 400).tdiv 2 = ((1520 / 2 : Nat) : Int) := by
  have h := showOSD_overlay_geometry "Power Mode Changed" "Switched to Quiet Mode"
    3000 ⟨0, 1920, 1080, 7, 1, [], true, true⟩ 2
  exact ⟨by rw [h.1]; decide, (h.2.1 (by decide)).1⟩

/-- C8: the destroy discipline of the window procedure: `DestroyWindow` is
invoked from the `WM_TIMER` branch and only there, and the quit signal is
posted from the `WM_DESTROY` branch and only there; in a normal-operation run
(window created, timer armed, no posted timer/destroy messages) exactly one
`DestroyWindow` appears in the whole trace, at the timer-expiry dispatch
right before the posted quit, never earlier. -/
theorem wndProc_destroy_once_after_timer (ctx : PaintCtx) (m : WMsg)
    (title message : String) (durationMs : Nat) (env : OSEnv)
    (hcreate : env.createWindowExRet ≠ 0) (htimer : env.setTimerRet ≠ 0)
    (hqd : WMsg.destroy ∉ env.initialQueue) (hqt : WMsg.timer ∉ env.initialQueue) :
    ((ApiCall.destroyWindow ∈ wndProcCallback ctx m) ↔ m = WMsg.timer) ∧
    ((ApiCall.postQuitMessage ∈ wndProcCallback ctx m) ↔ m = WMsg.destroy) ∧
    ((showOSD title message durationMs env (env.initialQueue.length + 2)).trace).count
        ApiCall.destroyWindow = 1 ∧
    ∃ pre, (showOSD title message durationMs env (env.initialQueue.length + 2)).trace =
        pre ++ [ApiCall.destroyWindow, ApiCall.postQuitMessage] ∧
      ApiCall.destroyWindow ∉ pre ∧ ApiCall.postQuitMessage ∉ pre := by
  obtain ⟨pre, hs, hd, hp⟩ :=
    showOSD_exits_shape title message durationMs env hcreate htimer hqd hqt
  refine ⟨?_, ?_, ?_, pre, ?_, hd, hp⟩
  · cases m <;> simp [wndProcCallback, paintCalls]
  · cases m <;> simp [wndProcCallback, paintCalls]
  · rw [hs]
    show (pre ++ [ApiCall.destroyWindow, ApiCall.postQuitMessage]).count
      ApiCall.destroyWindow = 1
    rw [List.count_append, List.count_eq_zero.mpr hd]
    decide
  · rw [hs]

theorem wndProc_destroy_once_after_timer_witness :
    ((ApiCall.destroyWindow ∈ wndProcCallback
        ⟨"Power Mode Changed", "Switched to Quiet Mode", true, true⟩ WMsg.timer) ↔
      WMsg.timer = WMsg.timer) ∧
    ((showOSD "Power Mode Changed" "Switched to Quiet Mode" 3000
        ⟨0, 1920, 1080, 7, 1, [WMsg.paint], true, true⟩
        ((⟨0, 1920, 1080, 7, 1, [WMsg.paint], true, true⟩ : OSEnv).initialQueue.length + 2)).trace).count
      ApiCall.destroyWindow = 1 := by
  have h := wndProc_destroy_once_after_timer
    ⟨"Power Mode Changed", "Switched to Quiet Mode", true, true⟩ WMsg.timer
    "Power Mode Changed" "Switched to Quiet Mode" 3000
    ⟨0, 1920, 1080, 7, 1, [WMsg.paint], true, true⟩
    (by decide) (by decide) (by decide) (by decide)
  exact ⟨h.1, h.2.2.1⟩

/-- C9: the `iconPath` argument of `ShowModeChange` is accepted but never
read: for every mode name and any two icon paths, the two runs are equal in
every respect (result, stored text, duration, and the whole inner `showOSD`
run, hence the rendered content). -/
theorem ShowModeChange_ignores_iconPath (n : Notifier) (modeName p₁ p₂ : String)
    (env : OSEnv) (fuel : Nat) :
    n.ShowModeChange modeName p₁ env fuel = n.ShowModeChange modeName p₂ env fuel :=
  rfl

end Toast

namespace Toast

/-- C6: for every mode name, `ShowModeChange` stores and displays exactly the
title "Power Mode Changed" and the message "Switched to <modeName> Mode"
(every title/message actually drawn by a paint response in its run equals
that text); `ShowError` uses the fixed title "Power Mode Error" with the
caller's message; both run `showOSD` synchronously with a display duration of
exactly 3 seconds (3000 ms) and wrap any internal failure as
"OSD notification error: <err>". -/
theorem ShowModeChange_ShowError_content (n : Notifier)
    (modeName iconPath msg : String) (env : OSEnv) (fuel : Nat) :
    (n.ShowModeChange modeName iconPath env fuel).globalTitle = "Power Mode Changed" ∧
    (n.ShowModeChange modeName iconPath env fuel).globalMessage =
      "Switched to " ++ modeName ++ " Mode" ∧
    (n.ShowModeChange modeName iconPath env fuel).durationMs = 3000 ∧
    (n.ShowModeChange modeName iconPath env fuel).run =
      showOSD "Power Mode Changed" ("Switched to " ++ modeName ++ " Mode") 3000 env fuel ∧
    (n.ShowModeChange modeName iconPath env fuel).result =
      ((n.ShowModeChange modeName iconPath env fuel).run.error).map
        (fun e => "OSD notification error: " ++ e) ∧
    (n.ShowError msg env fuel).globalTitle = "Power Mode Error" ∧
    (n.ShowError msg env fuel).globalMessage = msg ∧
    (n.ShowError msg env fuel).durationMs = 3000 ∧
    (n.ShowError msg env fuel).run = showOSD "Power Mode Error" msg 3000 env fuel ∧
    (n.ShowError msg env fuel).result =
      ((n.ShowError msg env fuel).run.error).map
        (fun e => "OSD notification error: " ++ e) ∧
    (∀ t ok, ApiCall.drawTitle t ok ∈ (n.ShowModeChange modeName iconPath env fuel).run.trace →
      t = "Power Mode Changed") ∧
    (∀ t ok, ApiCall.drawMessage t ok ∈ (n.ShowModeChange modeName iconPath env fuel).run.trace →
      t = "Switched to " ++ modeName ++ " Mode") := by
  refine ⟨rfl, rfl, rfl, rfl, rfl, rfl, rfl, rfl, rfl, rfl, ?_, ?_⟩
  · intro t ok h
    exact showOSD_trace_drawTitle "Power Mode Changed"
      ("Switched to " ++ modeName ++ " Mode") 3000 env fuel t ok h
  · intro t ok h
    exact showOSD_trace_drawMessage "Power Mode Changed"
      ("Switched to " ++ modeName ++ " Mode") 3000 env fuel t ok h

theorem ShowModeChange_ShowError_content_witness :
    (NewNotifier.ShowModeChange "Quiet" "icons/quiet.png"
        ⟨0, 1920, 1080, 7, 1, [], true, true⟩ 2).globalTitle = "Power Mode Changed" ∧
    (NewNotifier.ShowModeChange "Quiet" "icons/quiet.png"
        ⟨0, 1920, 1080, 7, 1, [], true, true⟩ 2).globalMessage = "Switched to Quiet Mode" ∧
    (NewNotifier.ShowModeChange "Quiet" "icons/quiet.png"
        ⟨0, 1920, 1080, 7, 1, [], true, true⟩ 2).durationMs = 3000 ∧
    (NewNotifier.ShowError "oops"
        ⟨0, 1920, 1080, 7, 1, [], true, true⟩ 2).globalTitle = "Power Mode Error" := by
  have h := ShowModeChange_ShowError_content NewNotifier "Quiet" "icons/quiet.png"
    "oops" ⟨0, 1920, 1080, 7, 1, [], true, true⟩ 2
  exact ⟨h.1, h.2.1, h.2.2.1, h.2.2.2.2.2.1⟩

end Toast

namespace Modes

/-- C10: for every current mode and non-empty allowed-modes list,
`GetNextModeFromList` returns `allowedModes[(i+1) mod len]` where `i` is the
(first) index at which `current` occurs, and `allowedModes[0]` when `current`
is not in the list; with an empty list it falls back to `GetNextMode`, whose
fixed rotation is quiet → balance → performance and which maps any
unrecognized current mode (e.g. "godmode") to "quiet"; the result is always a
member of the effective cycle. -/
theorem GetNextModeFromList_spec (current : PowerMode)
    (allowed : List PowerMode) (i : Nat) :
    (allowed ≠ [] → current ∉ allowed →
      NewManager.GetNextModeFromList current allowed = allowed.getD 0 "") ∧
    (i < allowed.length → allowed.getD i "" = current →
      (∀ j, j < i → allowed.getD j "" ≠ current) →
      NewManager.GetNextModeFromList current allowed =
        allowed.getD ((i + 1) % allowed.length) "") ∧
    (NewManager.GetNextModeFromList current [] = NewManager.GetNextMode current) ∧
    (NewManager.GetNextMode "godmode" = "quiet") ∧
    (current ∉ (["quiet", "balance", "performance"] : List String) →
      NewManager.GetNextMode current = "quiet") ∧
    (NewManager.GetNextMode "quiet" = "balance" ∧
     NewManager.GetNextMode "balance" = "performance" ∧
     NewManager.GetNextMode "performance" = "quiet") ∧
    (allowed ≠ [] → NewManager.GetNextModeFromList current allowed ∈ allowed) ∧
    (NewManager.GetNextModeFromList current [] ∈
      (["quiet", "balance", "performance"] : List String)) := by
  refine ⟨?_, ?_, rfl, by decide, ?_, ⟨by decide, by decide, by decide⟩, ?_, ?_⟩
  · intro hne hmem
    have hlen : ¬ allowed.length = 0 := by
      simpa [List.length_eq_zero] using hne
    simp only [Manager.GetNextModeFromList, if_neg hlen,
      findCurrentIndex_eq_none.mpr hmem]
  · intro hi hcur hfirst
    have hlen : ¬ allowed.length = 0 := by
      intro h0
      rw [List.length_eq_zero] at h0
      subst h0
      simp at hi
    simp only [Manager.GetNextModeFromList, if_neg hlen,
      findCurrentIndex_first hi hcur hfirst]
  · intro hmem
    have hnone : findCurrentIndex current NewManager.sequence = none := by
      refine findCurrentIndex_eq_none.mpr ?_
      simpa [NewManager, Quiet, Balance, Performance] using hmem
    simp only [Manager.GetNextMode, hnone]
    rfl
  · intro hne
    have hlen0 : 0 < allowed.length := List.length_pos.mpr hne
    have hlen : ¬ allowed.length = 0 := by omega
    simp only [Manager.GetNextModeFromList, if_neg hlen]
    cases hf : findCurrentIndex current allowed with
    | none => exact getD_mem hlen0
    | some j => exact getD_mem (Nat.mod_lt _ hlen0)
  · show NewManager.GetNextMode current ∈ _
    simp only [Manager.GetNextMode]
    cases hf : findCurrentIndex current NewManager.sequence with
    | none => exact getD_mem (by decide)
    | some j => exact getD_mem (Nat.mod_lt _ (by decide))

theorem GetNextModeFromList_spec_witness :
    NewManager.GetNextModeFromList "performance" ["quiet", "performance"] = "quiet" ∧
    NewManager.GetNextMode "godmode" = "quiet" ∧
    NewManager.GetNextModeFromList "balance" ["quiet", "performance"] = "quiet" := by
  have h := GetNextModeFromList_spec "performance" ["quiet", "performance"] 1
  have h2 := GetNextModeFromList_spec "balance" ["quiet", "performance"] 0
  exact ⟨h.2.1 (by decide) (by decide) (by decide),
    h.2.2.2.1,
    h2.1 (by decide) (by decide)⟩

end Modes
